import Mathlib

/-!
Shallow embedding of `scripts/optimize_ppocr_models.py`.

The script is a sequential pipeline: select a configuration table from two
environment variables, download model archives (or individual repository
files), extract them, invoke an external optimizer binary, fetch a character
dictionary (with a static fallback), and clean up the staging directory.

External effects are modelled by oracles collected in `World`:
network fetch success and served content per URL, the file list a tar archive
unpacks to, and the exit codes of the external `paddle_lite_opt` binary.
The filesystem is a partial map from path to file content, and every
externally visible action is recorded in an event trace.
-/

/-- Split a character list at every occurrence of `sep`, keeping empty
groups, as Python's `str.split(sep)` does. -/
def splitChars (sep : Char) : List Char → List (List Char)
  | [] => [[]]
  | c :: cs =>
    let r := splitChars sep cs
    if c == sep then [] :: r
    else
      match r with
      | [] => [[c]]
      | g :: gs => (c :: g) :: gs

/-- Python's `str.split(sep)` for a single-character separator. -/
def strSplit (sep : Char) (s : String) : List String :=
  (splitChars sep s.data).map String.mk

/-- Python's `str.lower()` (ASCII case used by this script). -/
def pyLower (s : String) : String :=
  String.mk (s.data.map Char.toLower)

/-- Whether `pre` is a leading piece of `s`. -/
def strStartsWith (pre s : String) : Bool :=
  pre.data.isPrefixOf s.data

/-- One entry of the `MODELS` configuration table: source URL, directory
name inside the archive, output stem, and whether the source is addressed as
a Hugging Face repository (`config.get('is_hf_repo', False)` defaults to
`false` for the v3 entries, which do not carry the key). -/
structure Cfg where
  url : String
  name : String
  output : String
  is_hf_repo : Bool := false
deriving DecidableEq

/-- The two environment variables read by the script, `none` meaning unset. -/
structure Env where
  ocrVersionVar : Option String
  useHFVar : Option String
deriving DecidableEq

/-- `OCR_VERSION = os.environ.get('OCR_VERSION', 'v3').lower()`. -/
def OCR_VERSION (e : Env) : String :=
  pyLower (e.ocrVersionVar.getD "v3")

/-- `USE_HUGGINGFACE = os.environ.get('USE_HF', 'false').lower() == 'true'`. -/
def USE_HUGGINGFACE (e : Env) : Bool :=
  pyLower (e.useHFVar.getD "false") == "true"

/-- The module-level `MODELS` table, as a function of the resolved version
string and the Hugging Face flag.  Entries are listed in Python dict
insertion order: detection, recognition, classifier. -/
def MODELS (version : String) (useHF : Bool) : List (String × Cfg) :=
  if version = "v5" then
    if useHF then
      [("detection",
        { url := "https://huggingface.co/PaddlePaddle/PP-OCRv5_mobile_det",
          name := "PP-OCRv5_mobile_det",
          output := "ppocr_det_v5",
          is_hf_repo := true }),
       ("recognition",
        { url := "https://huggingface.co/PaddlePaddle/PP-OCRv5_mobile_rec",
          name := "PP-OCRv5_mobile_rec",
          output := "ppocr_rec_v5",
          is_hf_repo := true }),
       ("classifier",
        { url := "https://paddleocr.bj.bcebos.com/dygraph_v2.0/ch/ch_ppocr_mobile_v2.0_cls_infer.tar",
          name := "ch_ppocr_mobile_v2.0_cls_infer",
          output := "ppocr_cls",
          is_hf_repo := false })]
    else
      [("detection",
        { url := "https://paddleocr.bj.bcebos.com/PP-OCRv5/chinese/ch_PP-OCRv5_det_infer.tar",
          name := "ch_PP-OCRv5_det_infer",
          output := "ppocr_det_v5",
          is_hf_repo := false }),
       ("recognition",
        { url := "https://paddleocr.bj.bcebos.com/PP-OCRv5/chinese/ch_PP-OCRv5_rec_infer.tar",
          name := "ch_PP-OCRv5_rec_infer",
          output := "ppocr_rec_v5",
          is_hf_repo := false }),
       ("classifier",
        { url := "https://paddleocr.bj.bcebos.com/dygraph_v2.0/ch/ch_ppocr_mobile_v2.0_cls_infer.tar",
          name := "ch_ppocr_mobile_v2.0_cls_infer",
          output := "ppocr_cls",
          is_hf_repo := false })]
  else if version = "v4" then
    if useHF then
      [("detection",
        { url := "https://huggingface.co/PaddlePaddle/PP-OCRv4_mobile_det",
          name := "PP-OCRv4_mobile_det",
          output := "ppocr_det_v4",
          is_hf_repo := true }),
       ("recognition",
        { url := "https://huggingface.co/PaddlePaddle/PP-OCRv4_mobile_rec",
          name := "PP-OCRv4_mobile_rec",
          output := "ppocr_rec_v4",
          is_hf_repo := true }),
       ("classifier",
        { url := "https://paddleocr.bj.bcebos.com/dygraph_v2.0/ch/ch_ppocr_mobile_v2.0_cls_infer.tar",
          name := "ch_ppocr_mobile_v2.0_cls_infer",
          output := "ppocr_cls",
          is_hf_repo := false })]
    else
      [("detection",
        { url := "https://paddleocr.bj.bcebos.com/PP-OCRv4/chinese/ch_PP-OCRv4_det_infer.tar",
          name := "ch_PP-OCRv4_det_infer",
          output := "ppocr_det_v4",
          is_hf_repo := false }),
       ("recognition",
        { url := "https://paddleocr.bj.bcebos.com/PP-OCRv4/chinese/ch_PP-OCRv4_rec_infer.tar",
          name := "ch_PP-OCRv4_rec_infer",
          output := "ppocr_rec_v4",
          is_hf_repo := false }),
       ("classifier",
        { url := "https://paddleocr.bj.bcebos.com/dygraph_v2.0/ch/ch_ppocr_mobile_v2.0_cls_infer.tar",
          name := "ch_ppocr_mobile_v2.0_cls_infer",
          output := "ppocr_cls",
          is_hf_repo := false })]
  else
    if useHF then
      [("detection",
        { url := "https://huggingface.co/PaddlePaddle/ch_PP-OCRv3_det_infer/resolve/main/inference.tar",
          name := "ch_PP-OCRv3_det_infer",
          output := "ppocr_det_v3" }),
       ("recognition",
        { url := "https://huggingface.co/PaddlePaddle/ch_PP-OCRv3_rec_infer/resolve/main/inference.tar",
          name := "ch_PP-OCRv3_rec_infer",
          output := "ppocr_rec_v3" }),
       ("classifier",
        { url := "https://paddleocr.bj.bcebos.com/dygraph_v2.0/ch/ch_ppocr_mobile_v2.0_cls_infer.tar",
          name := "ch_ppocr_mobile_v2.0_cls_infer",
          output := "ppocr_cls" })]
    else
      [("detection",
        { url := "https://paddleocr.bj.bcebos.com/PP-OCRv3/chinese/ch_PP-OCRv3_det_infer.tar",
          name := "ch_PP-OCRv3_det_infer",
          output := "ppocr_det_v3" }),
       ("recognition",
        { url := "https://paddleocr.bj.bcebos.com/PP-OCRv3/chinese/ch_PP-OCRv3_rec_infer.tar",
          name := "ch_PP-OCRv3_rec_infer",
          output := "ppocr_rec_v3" }),
       ("classifier",
        { url := "https://paddleocr.bj.bcebos.com/dygraph_v2.0/ch/ch_ppocr_mobile_v2.0_cls_infer.tar",
          name := "ch_ppocr_mobile_v2.0_cls_infer",
          output := "ppocr_cls" })]

/-- The table the given environment selects. -/
def MODELSofEnv (e : Env) : List (String × Cfg) :=
  MODELS (OCR_VERSION e) (USE_HUGGINGFACE e)

/-- Externally visible actions of a run, in order. -/
inductive Event where
  | probe
  | fetched (url dst : String)
  | extracted (file dest : String)
  | removedFile (file : String)
  | copied (src dst : String)
  | ranOpt (cmd : String)
  | wroteFile (path : String)
  | removedTree (dir : String)
deriving DecidableEq

/-- Program state: the filesystem (path to content; `none` = absent) and the
trace of externally visible actions performed so far. -/
structure St where
  fs : String → Option String
  events : List Event

/-- Oracles for everything outside the script itself. -/
structure World where
  /-- Exit status of `paddle_lite_opt --help`. -/
  probeExit : Int
  /-- Whether `urllib.request.urlretrieve` succeeds for a URL. -/
  fetch : String → Bool
  /-- The bytes the network serves for a URL, when the fetch succeeds. -/
  content : String → String
  /-- The (path, content) pairs `tarfile.extractall` creates for the archive
  downloaded from a URL. -/
  extractContents : String → List (String × String)
  /-- Exit status of `os.system` on an optimizer command line. -/
  optExit : String → Int

/-- Termination mode of the process: normal return, `sys.exit(code)`, or an
uncaught exception (which also ends the process with a non-zero status). -/
inductive Outcome where
  | ok
  | exited (code : Nat)
  | raised
deriving DecidableEq

/-- `os.path.join` for the separator-free components this script uses. -/
def pathJoin (a b : String) : String := a ++ "/" ++ b

/-- `os.makedirs(d, exist_ok=True)`. -/
def St.mkdir (st : St) (d : String) : St :=
  if (st.fs d).isSome then st
  else { st with fs := fun p => if p == d then some "" else st.fs p }

/-- `urllib.request.urlretrieve(url, dst)`: on success the destination file
holds the served content; on failure the exception propagates. -/
def urlretrieve (w : World) (url dst : String) (st : St) : Except Unit St :=
  if w.fetch url then
    Except.ok { fs := fun p => if p == dst then some (w.content url) else st.fs p,
                events := st.events ++ [Event.fetched url dst] }
  else Except.error ()

/-- The per-file list `download_hf_model` fetches from a repository. -/
def hf_files : List String := ["inference.pdiparams", "inference.json"]

/-- The download loop of `download_hf_model`: fetch each listed file into the
model directory, re-raising on the first failure. -/
def fetchFiles (w : World) (base_url model_dir : String) :
    List String → St → Except Unit St
  | [], st => Except.ok st
  | f :: rest, st =>
    match urlretrieve w (base_url ++ "/" ++ f) (pathJoin model_dir f) st with
    | Except.error e => Except.error e
    | Except.ok st1 => fetchFiles w base_url model_dir rest st1

/-- `download_hf_model(repo_url, model_name, extract_path)`: make the model
directory, fetch the listed files from `{repo_url}/resolve/main`, then copy
`inference.json` to `inference.pdmodel` when the former exists. -/
def download_hf_model (w : World) (repo_url model_name extract_path : String)
    (st : St) : Except Unit St :=
  let model_dir := pathJoin extract_path model_name
  let st0 := st.mkdir model_dir
  let base_url := repo_url ++ "/resolve/main"
  match fetchFiles w base_url model_dir hf_files st0 with
  | Except.error e => Except.error e
  | Except.ok st1 =>
    let json_path := pathJoin model_dir "inference.json"
    let model_path := pathJoin model_dir "inference.pdmodel"
    match st1.fs json_path with
    | some c =>
      Except.ok { fs := fun p => if p == model_path then some c else st1.fs p,
                  events := st1.events ++ [Event.copied json_path model_path] }
    | none => Except.ok st1

/-- `download_and_extract(url, extract_path)`: download the archive to the
last URL component, extract it, then delete the archive file. -/
def download_and_extract (w : World) (url extract_path : String) (st : St) :
    Except Unit St :=
  let filename := (strSplit '/' url).getLastD ""
  match urlretrieve w url filename st with
  | Except.error e => Except.error e
  | Except.ok st1 =>
    let st2 : St :=
      { fs := fun p => match (w.extractContents url).lookup p with
                       | some c => some c
                       | none => st1.fs p,
        events := st1.events ++ [Event.extracted filename extract_path] }
    Except.ok { fs := fun p => if p == filename then none else st2.fs p,
                events := st2.events ++ [Event.removedFile filename] }

/-- Primary model-file path `os.path.join(model_dir, model_name, "inference.pdmodel")`. -/
def primary_model_path (model_dir model_name : String) : String :=
  pathJoin (pathJoin model_dir model_name) "inference.pdmodel"

/-- Primary parameter-file path. -/
def primary_param_path (model_dir model_name : String) : String :=
  pathJoin (pathJoin model_dir model_name) "inference.pdiparams"

/-- Legacy model-file path `os.path.join(model_dir, model_name, f"{model_name}.pdmodel")`. -/
def legacy_model_path (model_dir model_name : String) : String :=
  pathJoin (pathJoin model_dir model_name) (model_name ++ ".pdmodel")

/-- Legacy parameter-file path. -/
def legacy_param_path (model_dir model_name : String) : String :=
  pathJoin (pathJoin model_dir model_name) (model_name ++ ".pdiparams")

/-- Lines 210-216 of `optimize_model`: start from the primary naming
convention and switch both paths to the legacy convention exactly when the
primary model file does not exist. -/
def resolvedFiles (ex : String → Option String) (model_dir model_name : String) :
    String × String :=
  if ex (primary_model_path model_dir model_name) = none then
    (legacy_model_path model_dir model_name, legacy_param_path model_dir model_name)
  else
    (primary_model_path model_dir model_name, primary_param_path model_dir model_name)

/-- The fixed-flag command line `optimize_model` builds. -/
def optCmd (model_file param_file output_file : String) : String :=
  "paddle_lite_opt " ++
  "--model_file=" ++ model_file ++ " " ++
  "--param_file=" ++ param_file ++ " " ++
  "--optimize_out=" ++ output_file ++ " " ++
  "--valid_targets=arm " ++
  "--optimize_out_type=naive_buffer " ++
  "--enable_fp16=true"

/-- `optimize_model(model_dir, model_name, output_name)`: resolve the file
pair, fail early when the resolved model file is absent, otherwise run the
optimizer command and report success iff its exit status is zero. -/
def optimize_model (w : World) (model_dir model_name output_name : String)
    (st : St) : Bool × St :=
  let mp := resolvedFiles st.fs model_dir model_name
  let output_file := pathJoin "optimized_models" output_name
  if st.fs mp.1 = none then (false, st)
  else
    let cmd := optCmd mp.1 mp.2 output_file
    let st1 : St := { st with events := st.events ++ [Event.ranOpt cmd] }
    if w.optExit cmd = 0 then (true, st1) else (false, st1)

/-- URL of the dictionary file. -/
def dict_url : String :=
  "https://raw.githubusercontent.com/PaddlePaddle/PaddleOCR/main/ppocr/utils/dict/en_dict.txt"

/-- Destination of the dictionary file. -/
def dict_file : String := "optimized_models/ppocr_keys_v1.txt"

/-- The character string the fallback dictionary is built from. -/
def fallback_chars : String :=
  "abcdefghijklmnopqrstuvwxyzABCDEFGHIJKLMNOPQRSTUVWXYZ0123456789"

/-- The fallback dictionary file content: each character of
`fallback_chars` followed by a newline. -/
def fallback_dict : String :=
  String.join (fallback_chars.toList.map fun c => String.mk [c] ++ "\n")

/-- `download_ppocr_dict()`: try to fetch the dictionary; on any error,
write the fallback dictionary instead of propagating. -/
def download_ppocr_dict (w : World) (st : St) : Except Unit St :=
  match urlretrieve w dict_url dict_file st with
  | Except.ok st1 => Except.ok st1
  | Except.error _ =>
    Except.ok { fs := fun p => if p == dict_file then some fallback_dict else st.fs p,
                events := st.events ++ [Event.wroteFile dict_file] }

/-- `shutil.rmtree(dir)`: remove the directory and everything below it. -/
def rmtree (dir : String) (st : St) : St :=
  { fs := fun p => if p == dir || strStartsWith (dir ++ "/") p then none else st.fs p,
    events := st.events ++ [Event.removedTree dir] }

/-- The per-model download dispatch of `main` (lines 291-295). -/
def downloadStep (w : World) (cfg : Cfg) (st : St) : Except Unit St :=
  if cfg.is_hf_repo then download_hf_model w cfg.url cfg.name "downloads" st
  else download_and_extract w cfg.url "downloads" st

/-- The model loop of `main`: download each model and optimize it; an
uncaught download error kills the process, a failed optimization calls
`sys.exit(1)`. -/
def processModels (w : World) : List (String × Cfg) → St → Outcome × St
  | [], st => (Outcome.ok, st)
  | (_, cfg) :: rest, st =>
    match downloadStep w cfg st with
    | Except.error _ => (Outcome.raised, st)
    | Except.ok st1 =>
      match optimize_model w "downloads" cfg.name cfg.output st1 with
      | (true, st2) => processModels w rest st2
      | (false, st2) => (Outcome.exited 1, st2)

/-- The directory creation and optimizer probe `main` performs before any
model work. -/
def setup_st (st : St) : St :=
  let st1 := (st.mkdir "downloads").mkdir "optimized_models"
  { st1 with events := st1.events ++ [Event.probe] }

namespace Script

/-- `main()`: create directories, probe the optimizer binary (exiting 1 when
the probe fails), process every model, fetch the dictionary, and remove the
staging directory. -/
def main (env : Env) (w : World) (st : St) : Outcome × St :=
  let st1 := setup_st st
  if w.probeExit ≠ 0 then (Outcome.exited 1, st1)
  else
    match processModels w (MODELSofEnv env) st1 with
    | (Outcome.ok, st2) =>
      match download_ppocr_dict w st2 with
      | Except.ok st3 => (Outcome.ok, rmtree "downloads" st3)
      | Except.error _ => (Outcome.raised, st2)
    | (Outcome.exited c, st2) => (Outcome.exited c, st2)
    | (Outcome.raised, st2) => (Outcome.raised, st2)

end Script

/-- Whether an event is a network download. -/
def Event.isDownload : Event → Bool
  | Event.fetched _ _ => true
  | _ => false

/-- Whether an event is an invocation of the external optimizer. -/
def Event.isOptInvocation : Event → Bool
  | Event.ranOpt _ => true
  | _ => false

/-- Empty filesystem, empty trace. -/
def stEmpty : St := { fs := fun _ => none, events := [] }

/-- A world where every external step succeeds and each archive unpacks to
the v3 model files the default run expects. -/
def wOk : World :=
  { probeExit := 0,
    fetch := fun _ => true,
    content := fun _ => "",
    extractContents := fun _ =>
      [("downloads/ch_PP-OCRv3_det_infer/inference.pdmodel", ""),
       ("downloads/ch_PP-OCRv3_det_infer/inference.pdiparams", ""),
       ("downloads/ch_PP-OCRv3_rec_infer/inference.pdmodel", ""),
       ("downloads/ch_PP-OCRv3_rec_infer/inference.pdiparams", ""),
       ("downloads/ch_ppocr_mobile_v2.0_cls_infer/inference.pdmodel", ""),
       ("downloads/ch_ppocr_mobile_v2.0_cls_infer/inference.pdiparams", "")],
    optExit := fun _ => 0 }

/-- A world where every network fetch fails. -/
def wFail : World :=
  { probeExit := 0,
    fetch := fun _ => false,
    content := fun _ => "",
    extractContents := fun _ => [],
    optExit := fun _ => 0 }

/-- A world where the optimizer probe fails. -/
def wProbeFail : World :=
  { probeExit := 1,
    fetch := fun _ => true,
    content := fun _ => "",
    extractContents := fun _ => [],
    optExit := fun _ => 0 }

/-- Both environment variables unset. -/
def envDefault : Env := { ocrVersionVar := none, useHFVar := none }

/-- A filesystem holding only the legacy-convention model file of a model
named `m`. -/
def stLegacy : St :=
  { fs := fun p => if p == legacy_model_path "downloads" "m" then some "" else none,
    events := [] }

/-- A filesystem holding only the primary model file of a model named `m`
(no parameter file). -/
def stPrimaryOnly : St :=
  { fs := fun p => if p == primary_model_path "downloads" "m" then some "" else none,
    events := [] }

theorem St.mkdir_events (st : St) (d : String) : (st.mkdir d).events = st.events := by
  unfold St.mkdir
  split <;> rfl

theorem setup_st_events (st : St) :
    (setup_st st).events = st.events ++ [Event.probe] := by
  show ((st.mkdir "downloads").mkdir "optimized_models").events ++ [Event.probe] =
    st.events ++ [Event.probe]
  rw [St.mkdir_events, St.mkdir_events]

theorem optimize_model_missing (w : World)
    (model_dir model_name output_name : String) (st : St)
    (h1 : st.fs (primary_model_path model_dir model_name) = none)
    (h2 : st.fs (legacy_model_path model_dir model_name) = none) :
    optimize_model w model_dir model_name output_name st = (false, st) := by
  simp [optimize_model, resolvedFiles, h1, h2]

/-- C1: if the probe of `paddle_lite_opt --help` returns a non-zero status,
`main` performs no model downloads and no optimizer invocations (the trace
grows only by the probe event) and the process exits with status 1. -/
theorem C1_probe_failure_aborts (env : Env) (w : World) (st : St)
    (h : w.probeExit ≠ 0) :
    (Script.main env w st).1 = Outcome.exited 1 ∧
    (Script.main env w st).2.events = st.events ++ [Event.probe] := by
  constructor <;> simp [Script.main, h, setup_st_events]

theorem C1_probe_failure_aborts_witness :
    (Script.main envDefault wProbeFail stEmpty).1 = Outcome.exited 1 ∧
    (Script.main envDefault wProbeFail stEmpty).2.events =
      stEmpty.events ++ [Event.probe] :=
  C1_probe_failure_aborts envDefault wProbeFail stEmpty (by decide)

/-- C2: when both the primary `inference.pdmodel` and the legacy
`{model_name}.pdmodel` files are absent, `optimize_model` returns failure
with the state untouched (in particular no optimizer invocation event);
inside the model loop such a failure after a successful download yields
`sys.exit(1)`, and `main` forwards that non-zero exit. -/
theorem C2_missing_model_file_aborts (w : World)
    (model_dir model_name output_name : String) (st : St)
    (h1 : st.fs (primary_model_path model_dir model_name) = none)
    (h2 : st.fs (legacy_model_path model_dir model_name) = none) :
    optimize_model w model_dir model_name output_name st = (false, st) ∧
    (∀ (w2 : World) (k : String) (cfg : Cfg) (rest : List (String × Cfg))
        (st2 st3 : St),
      downloadStep w2 cfg st2 = Except.ok st3 →
      st3.fs (primary_model_path "downloads" cfg.name) = none →
      st3.fs (legacy_model_path "downloads" cfg.name) = none →
      processModels w2 ((k, cfg) :: rest) st2 = (Outcome.exited 1, st3)) ∧
    (∀ (env : Env) (w3 : World) (st4 s : St),
      w3.probeExit = 0 →
      processModels w3 (MODELSofEnv env) (setup_st st4) = (Outcome.exited 1, s) →
      Script.main env w3 st4 = (Outcome.exited 1, s)) := by
  refine ⟨optimize_model_missing w _ _ _ st h1 h2, ?_, ?_⟩
  · intro w2 k cfg rest st2 st3 hdl h1' h2'
    simp [processModels, hdl, optimize_model_missing w2 _ _ _ st3 h1' h2']
  · intro env w3 st4 s hp hproc
    simp [Script.main, hp, hproc]

theorem C2_missing_model_file_aborts_witness :
    optimize_model wOk "downloads" "absent_model" "out" stEmpty = (false, stEmpty) :=
  (C2_missing_model_file_aborts wOk "downloads" "absent_model" "out" stEmpty rfl rfl).1

/-- C3: when the dictionary fetch fails, `download_ppocr_dict` returns
normally (no propagated error) and writes the fallback file, whose lines are
exactly the 62 characters of `fallback_chars`: the 26 lowercase letters,
the 26 uppercase letters, and the 10 digits, without repetition, one
character per line. -/
theorem C3_dict_fallback_62_chars (w : World) (st : St)
    (h : w.fetch dict_url = false) :
    download_ppocr_dict w st =
      Except.ok { fs := fun p => if p == dict_file then some fallback_dict else st.fs p,
                  events := st.events ++ [Event.wroteFile dict_file] } ∧
    strSplit '\n' fallback_dict =
      fallback_chars.toList.map (fun c => String.mk [c]) ++ [""] ∧
    fallback_chars.toList =
      (List.range 26).map (fun i => Char.ofNat (97 + i)) ++
      (List.range 26).map (fun i => Char.ofNat (65 + i)) ++
      (List.range 10).map (fun i => Char.ofNat (48 + i)) ∧
    fallback_chars.toList.Nodup := by
  refine ⟨?_, by decide, by decide, by decide⟩
  simp [download_ppocr_dict, urlretrieve, h]

theorem C3_dict_fallback_62_chars_witness :
    strSplit '\n' fallback_dict =
      fallback_chars.toList.map (fun c => String.mk [c]) ++ [""] :=
  (C3_dict_fallback_62_chars wFail stEmpty rfl).2.1

/-- C4: for every supported version tag and both source flags, the `MODELS`
table has exactly the three kinds detection, recognition, classifier, each
with a non-empty URL, non-empty name, and non-empty output filename. -/
theorem C4_models_well_formed :
    (["v3", "v4", "v5"].all fun v => [false, true].all fun hf =>
      ((MODELS v hf).map Prod.fst == ["detection", "recognition", "classifier"]) &&
      ((MODELS v hf).all fun kc =>
        !(kc.2.url == "") && !(kc.2.name == "") && !(kc.2.output == ""))) = true := by
  decide

/-- C5 counterexample: the version selector does not accept only the three
enumerated tags: the value `v6` is outside `{v3, v4, v5}` yet is accepted,
selecting the full (three-entry) v3 configuration instead of being
rejected. -/
theorem C5_counterexample_unlisted_version_accepted :
    OCR_VERSION { ocrVersionVar := some "v6", useHFVar := none } = "v6" ∧
    ("v6" ∉ (["v3", "v4", "v5"] : List String)) ∧
    MODELSofEnv { ocrVersionVar := some "v6", useHFVar := none } = MODELS "v3" false ∧
    (MODELSofEnv { ocrVersionVar := some "v6", useHFVar := none }).length = 3 := by
  refine ⟨rfl, by decide, by decide, by decide⟩

/-- C5 amended: only `v4` and `v5` are recognized specially; any other value
of the selector, including every unlisted tag, silently selects the v3
configuration, and when the variable is unset the selector resolves to
`v3` (the default). -/
theorem C5_amended_version_selection (env : Env)
    (h4 : OCR_VERSION env ≠ "v4") (h5 : OCR_VERSION env ≠ "v5") :
    MODELSofEnv env = MODELS "v3" (USE_HUGGINGFACE env) ∧
    OCR_VERSION { ocrVersionVar := none, useHFVar := env.useHFVar } = "v3" := by
  constructor
  · simp [h4, h5, MODELSofEnv, MODELS]
  · rfl

theorem C5_amended_version_selection_witness :
    MODELSofEnv { ocrVersionVar := some "weird", useHFVar := none } =
      MODELS "v3" (USE_HUGGINGFACE { ocrVersionVar := some "weird", useHFVar := none }) ∧
    OCR_VERSION { ocrVersionVar := none, useHFVar := none } = "v3" :=
  C5_amended_version_selection { ocrVersionVar := some "weird", useHFVar := none }
    (by decide) (by decide)

/-- C6: `optimize_model` resolves to the legacy `{model_name}.pdmodel` /
`{model_name}.pdiparams` pair exactly when the primary `inference.pdmodel`
is absent, keeps the primary pair otherwise, and the fallback itself is
silent: when the legacy model file is present the optimizer is invoked on
the legacy paths rather than any error being raised. -/
theorem C6_legacy_fallback_iff_primary_absent (w : World)
    (model_dir model_name output_name : String) (st : St) :
    (st.fs (primary_model_path model_dir model_name) = none →
      resolvedFiles st.fs model_dir model_name =
        (legacy_model_path model_dir model_name,
         legacy_param_path model_dir model_name)) ∧
    (st.fs (primary_model_path model_dir model_name) ≠ none →
      resolvedFiles st.fs model_dir model_name =
        (primary_model_path model_dir model_name,
         primary_param_path model_dir model_name)) ∧
    (st.fs (primary_model_path model_dir model_name) = none →
      st.fs (legacy_model_path model_dir model_name) ≠ none →
      (optimize_model w model_dir model_name output_name st).2.events =
        st.events ++ [Event.ranOpt (optCmd (legacy_model_path model_dir model_name)
          (legacy_param_path model_dir model_name)
          (pathJoin "optimized_models" output_name))]) := by
  refine ⟨fun h1 => by simp [resolvedFiles, h1],
          fun h1 => by simp [resolvedFiles, h1],
          fun h1 h2 => ?_⟩
  by_cases hc : w.optExit (optCmd (legacy_model_path model_dir model_name)
      (legacy_param_path model_dir model_name)
      (pathJoin "optimized_models" output_name)) = 0 <;>
    simp [optimize_model, resolvedFiles, h1, h2, hc]

theorem C6_legacy_fallback_iff_primary_absent_witness :
    resolvedFiles stLegacy.fs "downloads" "m" =
      (legacy_model_path "downloads" "m", legacy_param_path "downloads" "m") ∧
    (optimize_model wOk "downloads" "m" "out" stLegacy).2.events =
      stLegacy.events ++ [Event.ranOpt (optCmd (legacy_model_path "downloads" "m")
        (legacy_param_path "downloads" "m") (pathJoin "optimized_models" "out"))] :=
  ⟨(C6_legacy_fallback_iff_primary_absent wOk "downloads" "m" "out" stLegacy).1
      (by decide),
   (C6_legacy_fallback_iff_primary_absent wOk "downloads" "m" "out" stLegacy).2.2
      (by decide) (by decide)⟩

/-- C7: if the fetch of any one of the listed per-model files fails,
`download_hf_model` re-raises the error: the whole operation aborts with no
success return. -/
theorem C7_hf_fetch_failure_raises (w : World)
    (repo_url model_name extract_path : String) (st : St)
    (h : ∃ f ∈ hf_files, w.fetch (repo_url ++ "/resolve/main" ++ "/" ++ f) = false) :
    download_hf_model w repo_url model_name extract_path st = Except.error () := by
  obtain ⟨f, hmem, hfail⟩ := h
  simp only [hf_files, List.mem_cons, List.not_mem_nil, or_false] at hmem
  by_cases h1 : w.fetch (repo_url ++ "/resolve/main" ++ "/" ++ "inference.pdiparams") = true
  · have h2 : w.fetch (repo_url ++ "/resolve/main" ++ "/" ++ "inference.json") = false := by
      rcases hmem with rfl | rfl
      · rw [h1] at hfail
        exact absurd hfail (by simp)
      · exact hfail
    simp [download_hf_model, fetchFiles, urlretrieve, h1, h2]
  · simp only [Bool.not_eq_true] at h1
    simp [download_hf_model, fetchFiles, urlretrieve, h1]

theorem C7_hf_fetch_failure_raises_witness :
    download_hf_model wFail "https://r" "m" "downloads" stEmpty = Except.error () :=
  C7_hf_fetch_failure_raises wFail "https://r" "m" "downloads" stEmpty
    ⟨"inference.pdiparams", by decide, rfl⟩

/-- C8: on successful return of `download_and_extract`, the local archive
file (the last component of the URL) no longer exists. -/
theorem C8_archive_removed (w : World) (url extract_path : String) (st st' : St)
    (h : download_and_extract w url extract_path st = Except.ok st') :
    st'.fs ((strSplit '/' url).getLastD "") = none := by
  by_cases hf : w.fetch url = true
  · simp only [download_and_extract, urlretrieve, hf, if_true, Except.ok.injEq] at h
    rw [← h]
    simp
  · simp only [Bool.not_eq_true] at hf
    simp [download_and_extract, urlretrieve, hf] at h

theorem C8_archive_removed_witness :
    (match download_and_extract wOk "http://host/pkg.tar" "downloads" stEmpty with
     | Except.ok st' => st'.fs ((strSplit '/' "http://host/pkg.tar").getLastD "") = none
     | Except.error _ => False) := by
  have hOk : (download_and_extract wOk "http://host/pkg.tar" "downloads" stEmpty).isOk = true := by
    rfl
  cases h : download_and_extract wOk "http://host/pkg.tar" "downloads" stEmpty with
  | ok st' => exact C8_archive_removed wOk "http://host/pkg.tar" "downloads" stEmpty st' h
  | error e =>
    rw [h] at hOk
    simp [Except.isOk, Except.toBool] at hOk

/-- C9: when `main` returns normally (every model processed successfully),
the `downloads` staging directory and everything below it are gone from the
final filesystem. -/
theorem C9_downloads_removed (env : Env) (w : World) (st st' : St)
    (h : Script.main env w st = (Outcome.ok, st')) :
    st'.fs "downloads" = none ∧
    ∀ p : String, strStartsWith "downloads/" p = true → st'.fs p = none := by
  simp only [Script.main] at h
  split at h
  · simp at h
  · split at h
    · split at h
      · rw [Prod.mk.injEq] at h
        rw [← h.2]
        constructor
        · simp [rmtree]
        · intro p hp2
          have hpre : strStartsWith ("downloads" ++ "/") p = true := hp2
          simp [rmtree, hpre]
          intro _ hfalse
          rw [hp2] at hfalse
          cases hfalse
      · simp at h
    · simp at h
    · simp at h

theorem C9_downloads_removed_witness :
    (Script.main envDefault wOk stEmpty).2.fs "downloads" = none ∧
    (Script.main envDefault wOk stEmpty).2.fs
      "downloads/ch_PP-OCRv3_det_infer/inference.pdmodel" = none := by
  have h : Script.main envDefault wOk stEmpty =
      (Outcome.ok, (Script.main envDefault wOk stEmpty).2) := by rfl
  obtain ⟨h1, h2⟩ :=
    C9_downloads_removed envDefault wOk stEmpty (Script.main envDefault wOk stEmpty).2 h
  exact ⟨h1, h2 _ (by decide)⟩

/-- C10: the pre-invocation existence check of `optimize_model` covers only
the resolved model file: whenever that model file exists but its parameter
file is absent, the error branch is not taken and the optimizer is still
invoked with the nonexistent parameter path on its command line. -/
theorem C10_param_file_never_checked (w : World)
    (model_dir model_name output_name : String) (st : St)
    (h1 : st.fs (resolvedFiles st.fs model_dir model_name).1 ≠ none)
    (_h2 : st.fs (resolvedFiles st.fs model_dir model_name).2 = none) :
    (optimize_model w model_dir model_name output_name st).2.events =
      st.events ++ [Event.ranOpt (optCmd (resolvedFiles st.fs model_dir model_name).1
        (resolvedFiles st.fs model_dir model_name).2
        (pathJoin "optimized_models" output_name))] := by
  by_cases hc : w.optExit (optCmd (resolvedFiles st.fs model_dir model_name).1
      (resolvedFiles st.fs model_dir model_name).2
      (pathJoin "optimized_models" output_name)) = 0 <;>
    simp [optimize_model, h1, hc]

theorem C10_param_file_never_checked_witness :
    (optimize_model wOk "downloads" "m" "out" stPrimaryOnly).2.events =
      stPrimaryOnly.events ++
        [Event.ranOpt (optCmd (resolvedFiles stPrimaryOnly.fs "downloads" "m").1
          (resolvedFiles stPrimaryOnly.fs "downloads" "m").2
          (pathJoin "optimized_models" "out"))] :=
  C10_param_file_never_checked wOk "downloads" "m" "out" stPrimaryOnly
    (by decide) (by decide)
